import Mathlib

/-!
Shallow embedding of the envelope-ingestion core of the cleanup service
(`cleanup_envelope.c`) and of the TLS server-init attribute marshaling
(`tls_proxy_server_init_scan.c`), with theorems settling the frozen claims.

Pure C helpers that live outside the sampled sources (the record-type table,
`atol`, `split_nameval`, `verp_delims_verify`, the address rewriters and the
content handler) are modelled from the specification; each such definition
carries a doc comment saying so.
-/

/-- C `atol` on a record payload: skip leading whitespace, optional sign,
then leading decimal digits; no digits yields zero.  Overflow of the C
`long` is not modelled (payloads of interest are small). -/
def atol_digits (cs : List Char) : Nat :=
  (cs.takeWhile Char.isDigit).foldl (fun a c => a * 10 + (c.toNat - 48)) 0

def atol (s : String) : Int :=
  let cs := s.toList.dropWhile (fun c => c = ' ' ∨ c = '\t' ∨ c = '\n' ∨ c = '\r')
  match cs with
  | '-' :: rest => - (atol_digits rest : Int)
  | '+' :: rest => (atol_digits rest : Int)
  | _ => (atol_digits cs : Int)

/-- Envelope record types (`rec_type.h` is outside the sampled sources; the
closed set is taken from the data model section of the design).  `other`
stands for any record type outside the closed set. -/
inductive RecType where
  | SIZE | TIME | FULL | FROM | RCPT | DONE | WARN | VERP | ATTR | ORCP | FLGS | MESG
  | other (c : Char)
deriving DecidableEq, Repr

/-- Modelled from the spec: `REC_TYPE_ENVELOPE` is the valid-in-envelope-segment
subset of the closed record-type set — everything except `MESG` and unknown
types. -/
def rec_type_envelope_member (t : RecType) : Bool :=
  match t with
  | .MESG => false
  | .other _ => false
  | _ => true

/-- The per-record handler pointer stored in the state, as the two-state
tagged variant the design prescribes for it. -/
inductive CleanupAction where
  | envelope
  | message
deriving DecidableEq, Repr

/-- One record emitted to the record sink. -/
abbrev OutRec := RecType × String

/-- `CLEANUP_STATE`, restricted to the fields the envelope processor touches,
plus the observable effect trace: records written to the sink and the number
of `msg_warn` diagnostics issued.  `time = 0` and `warn_time = 0` encode
"unset", exactly as the C code tests them. -/
structure CleanupState where
  queue_id : String
  flags : Nat
  errs : Nat
  time : Int
  warn_time : Int
  sender : Option String
  fullname : Option String
  orig_rcpt : Option String
  attr : List (String × String)
  action : CleanupAction
  sink : List OutRec
  warnings : Nat
deriving DecidableEq, Repr

/-- Global configuration knobs read by the envelope processor. -/
structure Config where
  var_delay_warn_time : Int
  var_qattr_count_limit : Nat
deriving DecidableEq, Repr

/-- `CLEANUP_STAT_BAD` error bit (value from `cleanup_user.h`, outside the
sampled sources; only its identity as a fixed bit matters). -/
def CLEANUP_STAT_BAD : Nat := 1

/-- Modelled from the spec: the allowed extra-flags mask
(`CLEANUP_FLAG_MASK_EXTRA`, defined in `cleanup.h` outside the sampled
sources).  A concrete two-bit mask; the claims do not depend on which bits
are in it, only that it is not the all-ones int. -/
def CLEANUP_FLAG_MASK_EXTRA : Nat := 48

/-- The C test `extra_flags & ~CLEANUP_FLAG_MASK_EXTRA` on a two's-complement
int is nonzero iff the value is negative (sign bits lie outside the mask) or
has a set bit outside the mask. -/
def flags_outside_mask_extra (e : Int) : Bool :=
  decide (e < 0) || (e.toNat &&& CLEANUP_FLAG_MASK_EXTRA != e.toNat)

/-- `msg_warn`: record one warning diagnostic. -/
def msg_warn (st : CleanupState) : CleanupState :=
  { st with warnings := st.warnings + 1 }

/-- `cleanup_out`: append one record to the record sink. -/
def cleanup_out (st : CleanupState) (t : RecType) (buf : String) : CleanupState :=
  { st with sink := st.sink ++ [(t, buf)] }

/-- The payload of the size/count placeholder record that `cleanup_envelope`
emits first (`REC_TYPE_SIZE_FORMAT` with three zero counters; the fixed-width
padding of the C format is elided, no claim inspects it). -/
def size_slot_payload : String := "0 0 0"

/-- Modelled from the spec: `split_nameval` splits an `ATTR` payload at the
first `=` into name and value; a payload with no `=` or with an empty name is
malformed (`none` plays the role of the returned error text). -/
def split_nameval (s : String) : Option (String × String) :=
  let cs := s.toList
  if cs.contains '=' ∧ cs.head? ≠ some '=' then
    some (String.mk (cs.takeWhile (· ≠ '=')), String.mk ((cs.dropWhile (· ≠ '=')).drop 1))
  else
    none

/-- `nvtable_update`: insert or replace a name/value binding; `used` is the
number of distinct names, i.e. the length of this list. -/
def nvtable_update (tbl : List (String × String)) (n v : String) :
    List (String × String) :=
  if tbl.any (fun p => p.1 = n) then
    tbl.map (fun p => if p.1 = n then (n, v) else p)
  else
    tbl ++ [(n, v)]

/-- Modelled from the spec: a legal VERP delimiter is printable ASCII
excluding whitespace and address special characters. -/
def verp_delim_ok (c : Char) : Bool :=
  33 ≤ c.toNat && c.toNat ≤ 126 && !("@.:[]()<>,;\"\\".toList.contains c)

/-- Modelled from the spec: `verp_delims_verify` accepts exactly a
two-character payload whose characters are both legal delimiters (`true`
stands for the C success return 0). -/
def verp_delims_verify (s : String) : Bool :=
  s.toList.length = 2 && s.toList.all verp_delim_ok

/-- Modelled from the spec: `cleanup_addr_sender` canonicalizes the raw
sender (canonicalization itself is out of scope and modelled as the
identity), sets `state.sender`, and emits the canonical `FROM` record to the
sink. -/
def cleanup_addr_sender (st : CleanupState) (buf : String) : CleanupState :=
  { st with sender := some buf, sink := st.sink ++ [(.FROM, buf)] }

/-- Modelled from the spec: `cleanup_addr_recipient` canonicalizes the raw
recipient (modelled as the identity, with no fan-out) and emits an `ORCP`
record carrying the pending original-recipient label followed by the `RCPT`
record. -/
def cleanup_addr_recipient (st : CleanupState) (buf : String) : CleanupState :=
  { st with sink := st.sink ++ [(.ORCP, st.orig_rcpt.getD buf), (.RCPT, buf)] }

/-- The orphan original-recipient cleanup block: for any record other than
`RCPT`, a pending `orig_rcpt` is released, with a warning unless the record
is `DONE`. -/
def cleanup_orphan_check (st : CleanupState) (type : RecType) : CleanupState :=
  if type ≠ .RCPT ∧ st.orig_rcpt ≠ none then
    let st1 := if type ≠ .DONE then msg_warn st else st
    { st1 with orig_rcpt := none }
  else
    st

/-- `cleanup_envelope_process`: handle one envelope record, mirroring the C
control flow (boundary check, flags record, membership check, orphan cleanup,
per-type dispatch). -/
def cleanup_envelope_process (cfg : Config) (st : CleanupState) (type : RecType)
    (buf : String) : CleanupState :=
  if type = .MESG then
    if st.sender = none ∨ st.time = 0 then
      { msg_warn st with errs := st.errs ||| CLEANUP_STAT_BAD }
    else
      let st1 := if st.warn_time = 0 ∧ cfg.var_delay_warn_time > 0 then
                   { st with warn_time := st.time + cfg.var_delay_warn_time }
                 else st
      let st2 := if st1.warn_time ≠ 0 then
                   cleanup_out st1 .WARN (toString st1.warn_time)
                 else st1
      { st2 with action := .message }
  else if type = .FLGS then
    let extra_flags := atol buf
    if flags_outside_mask_extra extra_flags then
      msg_warn st
    else
      { st with flags := st.flags ||| extra_flags.toNat }
  else if ¬ rec_type_envelope_member type then
    { msg_warn st with errs := st.errs ||| CLEANUP_STAT_BAD }
  else
    let st := cleanup_orphan_check st type
    if type = .TIME then
      cleanup_out { st with time := atol buf } .TIME buf
    else if type = .FULL then
      { st with fullname := some buf }
    else if type = .FROM then
      if st.sender ≠ none then
        { msg_warn st with errs := st.errs ||| CLEANUP_STAT_BAD }
      else
        cleanup_addr_sender st buf
    else if type = .RCPT then
      if st.sender = none then
        { msg_warn st with errs := st.errs ||| CLEANUP_STAT_BAD }
      else
        let st1 := if st.orig_rcpt = none then { st with orig_rcpt := some buf } else st
        let st2 := cleanup_addr_recipient st1 buf
        { st2 with orig_rcpt := none }
    else if type = .DONE then
      st
    else if type = .WARN then
      let st1 := { st with warn_time := atol buf }
      if st1.warn_time < 0 then
        { st1 with errs := st1.errs ||| CLEANUP_STAT_BAD }
      else
        st1
    else if type = .VERP then
      if st.sender = none ∨ st.sender = some "" then
        { st with errs := st.errs ||| CLEANUP_STAT_BAD }
      else if verp_delims_verify buf then
        cleanup_out st .VERP buf
      else
        { msg_warn st with errs := st.errs ||| CLEANUP_STAT_BAD }
    else if type = .ATTR then
      if st.attr.length ≥ cfg.var_qattr_count_limit then
        { msg_warn st with errs := st.errs ||| CLEANUP_STAT_BAD }
      else
        let st1 := cleanup_out st .ATTR buf
        match split_nameval buf with
        | none => { msg_warn st1 with errs := st1.errs ||| CLEANUP_STAT_BAD }
        | some (n, v) => { st1 with attr := nvtable_update st1.attr n v }
    else if type = .ORCP then
      { st with orig_rcpt := some buf }
    else
      cleanup_out st type buf

/-- `cleanup_envelope`: the begin entry point — emit the size/count
placeholder record, install the per-record handler, delegate the first
record to it. -/
def cleanup_envelope (cfg : Config) (st : CleanupState) (type : RecType)
    (buf : String) : CleanupState :=
  let st1 := cleanup_out st .SIZE size_slot_payload
  let st2 := { st1 with action := CleanupAction.envelope }
  cleanup_envelope_process cfg st2 type buf

/-- Modelled from the spec: the content processor (`cleanup_message`) is out
of scope; it is modelled as leaving the envelope-related state unchanged. -/
def cleanup_message (st : CleanupState) : CleanupState := st

/-- Dispatch one record through the handler currently installed in
`state.action`. -/
def cleanup_step (cfg : Config) (st : CleanupState) (r : OutRec) : CleanupState :=
  match st.action with
  | .envelope => cleanup_envelope_process cfg st r.1 r.2
  | .message => cleanup_message st

/-- Run a record stream through the processor. -/
def cleanup_run (cfg : Config) (st : CleanupState) (rs : List OutRec) : CleanupState :=
  rs.foldl (cleanup_step cfg) st

/-- A freshly allocated cleanup state, after `cleanup_envelope` has installed
the envelope handler and emitted the size slot. -/
def cleanup_state_init (qid : String) : CleanupState :=
  { queue_id := qid, flags := 0, errs := 0, time := 0, warn_time := 0,
    sender := none, fullname := none, orig_rcpt := none, attr := [],
    action := .envelope, sink := [(.SIZE, size_slot_payload)], warnings := 0 }

/-- `TLS_SERVER_INIT_PROPS`: the 16 owned string fields (a C `char *`,
`none` standing for a null pointer) and the 3 integer fields of the
server-init property bundle. -/
structure TLS_SERVER_INIT_PROPS where
  log_param : Option String
  log_level : Option String
  cache_type : Option String
  cert_file : Option String
  key_file : Option String
  dcert_file : Option String
  dkey_file : Option String
  eccert_file : Option String
  eckey_file : Option String
  CAfile : Option String
  CApath : Option String
  protocols : Option String
  eecdh_grade : Option String
  dh1024_param_file : Option String
  dh512_param_file : Option String
  mdalg : Option String
  verifydepth : Int
  set_sessid : Int
  ask_ccert : Int
deriving DecidableEq, Repr

/-- Outcome of the attribute scan call inside `tls_proxy_server_init_scan`:
the number of attribute fields the scan function read (its return value) and
the values it left in the string buffers and integer slots (a field it did
not reach keeps its initial value: empty string, zero integer). -/
structure ScanOutcome where
  fields_read : Int
  log_param : String
  log_level : String
  cache_type : String
  cert_file : String
  key_file : String
  dcert_file : String
  dkey_file : String
  eccert_file : String
  eckey_file : String
  CAfile : String
  CApath : String
  protocols : String
  eecdh_grade : String
  dh1024_param_file : String
  dh512_param_file : String
  mdalg : String
  verifydepth : Int
  set_sessid : Int
  ask_ccert : Int
deriving DecidableEq, Repr

/-- The number of attributes in the server-init wire schema: the 19
`RECV_ATTR` entries of the scan call (16 strings and 3 integers). -/
def TLS_SERVER_INIT_SCHEMA_SIZE : Nat := 19

/-- `tls_proxy_server_init_scan`, as a function of the scan outcome: every
string buffer is exported into an owned string of the bundle whether the
scan reached it or not, the bundle is stored through the output pointer in
both the success and the error case (the first component), and the return
value is 1 exactly when the scan function read 19 fields, -1 otherwise. -/
def tls_proxy_server_init_scan (o : ScanOutcome) : TLS_SERVER_INIT_PROPS × Int :=
  ({ log_param := some o.log_param
   , log_level := some o.log_level
   , cache_type := some o.cache_type
   , cert_file := some o.cert_file
   , key_file := some o.key_file
   , dcert_file := some o.dcert_file
   , dkey_file := some o.dkey_file
   , eccert_file := some o.eccert_file
   , eckey_file := some o.eckey_file
   , CAfile := some o.CAfile
   , CApath := some o.CApath
   , protocols := some o.protocols
   , eecdh_grade := some o.eecdh_grade
   , dh1024_param_file := some o.dh1024_param_file
   , dh512_param_file := some o.dh512_param_file
   , mdalg := some o.mdalg
   , verifydepth := o.verifydepth
   , set_sessid := o.set_sessid
   , ask_ccert := o.ask_ccert },
   if o.fields_read = 19 then 1 else -1)

/-- `tls_proxy_server_init_free`: the owned string fields the free routine
passes to `myfree`, in source order. -/
def tls_proxy_server_init_free (p : TLS_SERVER_INIT_PROPS) : List (Option String) :=
  [p.log_param, p.log_level, p.cache_type, p.cert_file, p.key_file,
   p.dcert_file, p.dkey_file, p.eccert_file, p.eckey_file, p.CAfile,
   p.CApath, p.protocols, p.eecdh_grade, p.dh1024_param_file,
   p.dh512_param_file, p.mdalg]

/-- A stream consisting solely of `ATTR` records with the given payloads. -/
def attr_stream (ps : List String) : List OutRec :=
  ps.map (fun p => (.ATTR, p))

/-- The name/value pair an `ATTR` payload contributes to the mapping. -/
def attr_entry (p : String) : String × String :=
  (split_nameval p).getD ("", "")

/-- A sample configuration used by the concrete witnesses below. -/
def cfg0 : Config := { var_delay_warn_time := 10, var_qattr_count_limit := 2 }

/-- A state in which a sender and an arrival time have been recorded. -/
def stA : CleanupState :=
  { cleanup_state_init "q" with sender := some "a@x", time := 5 }

/-- A state with a pending original-recipient label. -/
def stP : CleanupState :=
  { cleanup_state_init "q" with sender := some "a@x", time := 1, orig_rcpt := some "X" }

/-- A concrete scan outcome used by the C9 witness. -/
def scan0 : ScanOutcome :=
  { fields_read := 19, log_param := "lp", log_level := "1", cache_type := "c",
    cert_file := "cf", key_file := "kf", dcert_file := "", dkey_file := "",
    eccert_file := "", eckey_file := "", CAfile := "", CApath := "",
    protocols := "p", eecdh_grade := "g", dh1024_param_file := "",
    dh512_param_file := "", mdalg := "sha256", verifydepth := 5,
    set_sessid := 1, ask_ccert := 0 }

/-! ### Helper lemmas -/

lemma stat_bad_or (e : Nat) : (e ||| CLEANUP_STAT_BAD) &&& CLEANUP_STAT_BAD ≠ 0 := by
  simp [CLEANUP_STAT_BAD, Nat.and_one_is_mod, Nat.or_mod_two_eq_one]

lemma stat_bad_or_idem (e : Nat) :
    (e ||| CLEANUP_STAT_BAD) ||| CLEANUP_STAT_BAD = e ||| CLEANUP_STAT_BAD := by
  rw [Nat.or_assoc, Nat.or_self]

lemma orphan_check_errs (st : CleanupState) (t : RecType) :
    (cleanup_orphan_check st t).errs = st.errs := by
  unfold cleanup_orphan_check msg_warn
  split
  · split <;> rfl
  · rfl

lemma orphan_check_sink (st : CleanupState) (t : RecType) :
    (cleanup_orphan_check st t).sink = st.sink := by
  unfold cleanup_orphan_check msg_warn
  split
  · split <;> rfl
  · rfl

lemma orphan_check_time (st : CleanupState) (t : RecType) :
    (cleanup_orphan_check st t).time = st.time := by
  unfold cleanup_orphan_check msg_warn
  split
  · split <;> rfl
  · rfl

lemma orphan_check_warn_time (st : CleanupState) (t : RecType) :
    (cleanup_orphan_check st t).warn_time = st.warn_time := by
  unfold cleanup_orphan_check msg_warn
  split
  · split <;> rfl
  · rfl

lemma orphan_check_sender (st : CleanupState) (t : RecType) :
    (cleanup_orphan_check st t).sender = st.sender := by
  unfold cleanup_orphan_check msg_warn
  split
  · split <;> rfl
  · rfl

lemma orphan_check_attr (st : CleanupState) (t : RecType) :
    (cleanup_orphan_check st t).attr = st.attr := by
  unfold cleanup_orphan_check msg_warn
  split
  · split <;> rfl
  · rfl

lemma orphan_check_flags (st : CleanupState) (t : RecType) :
    (cleanup_orphan_check st t).flags = st.flags := by
  unfold cleanup_orphan_check msg_warn
  split
  · split <;> rfl
  · rfl

lemma orphan_check_action (st : CleanupState) (t : RecType) :
    (cleanup_orphan_check st t).action = st.action := by
  unfold cleanup_orphan_check msg_warn
  split
  · split <;> rfl
  · rfl

lemma orphan_check_rcpt (st : CleanupState) :
    cleanup_orphan_check st .RCPT = st := by
  simp [cleanup_orphan_check]

/-! ### C6: a RCPT record before any sender is rejected outright -/

/-- C6: a `RCPT` record received while `state.sender` is unset is rejected:
one warning, `errs & BAD` set, and the state is otherwise untouched — no
rewriter runs, nothing reaches the sink, the sender stays unset. -/
theorem rcpt_before_sender_rejected (cfg : Config) (st : CleanupState) (buf : String)
    (hs : st.sender = none) :
    cleanup_envelope_process cfg st .RCPT buf =
      { st with errs := st.errs ||| CLEANUP_STAT_BAD, warnings := st.warnings + 1 } := by
  simp [cleanup_envelope_process, cleanup_orphan_check, msg_warn, hs]

/-- Witness for C6 at a concrete state. -/
theorem rcpt_before_sender_rejected_witness :
    cleanup_envelope_process cfg0 (cleanup_state_init "q") .RCPT "bob@example" =
      { cleanup_state_init "q" with
          errs := (cleanup_state_init "q").errs ||| CLEANUP_STAT_BAD,
          warnings := (cleanup_state_init "q").warnings + 1 } :=
  rcpt_before_sender_rejected cfg0 (cleanup_state_init "q") "bob@example" rfl

/-! ### C2: warn_time sign -/

/-- C2 counterexample: after the single record `WARN "-1"` the processor has
stored the negative value into `warn_time` (the C code assigns before it
tests the sign), so `warn_time ≥ 0` does not hold after every operation,
although `errs & BAD` is set as claimed. -/
theorem warn_negative_warn_time_cex :
    (cleanup_run cfg0 (cleanup_state_init "q") [(.WARN, "-1")]).warn_time = -1 ∧
    ¬ (0 ≤ (cleanup_run cfg0 (cleanup_state_init "q") [(.WARN, "-1")]).warn_time) ∧
    (cleanup_run cfg0 (cleanup_state_init "q") [(.WARN, "-1")]).errs &&&
        CLEANUP_STAT_BAD ≠ 0 := by
  decide

/-- C2 amended: a `WARN` record always stores the parsed payload into
`warn_time`; when the value is negative, `errs & BAD` is set (with the
negative value left in `warn_time`), and when it is nonnegative, `errs` is
untouched and `warn_time` stays nonnegative. -/
theorem warn_record_sets_warn_time (cfg : Config) (st : CleanupState) (buf : String) :
    (cleanup_envelope_process cfg st .WARN buf).warn_time = atol buf ∧
    (atol buf < 0 →
      (cleanup_envelope_process cfg st .WARN buf).errs &&& CLEANUP_STAT_BAD ≠ 0) ∧
    (0 ≤ atol buf →
      (cleanup_envelope_process cfg st .WARN buf).errs = st.errs ∧
      0 ≤ (cleanup_envelope_process cfg st .WARN buf).warn_time) := by
  refine ⟨?_, ?_, ?_⟩
  · by_cases hneg : atol buf < 0 <;>
      simp [cleanup_envelope_process, rec_type_envelope_member, hneg]
  · intro hneg
    simp [cleanup_envelope_process, rec_type_envelope_member, hneg,
      orphan_check_errs, stat_bad_or]
  · intro hpos
    have hneg : ¬ atol buf < 0 := not_lt.mpr hpos
    simp [cleanup_envelope_process, rec_type_envelope_member, hneg,
      orphan_check_errs, hpos]

/-- Witness for C2's amended theorem at `WARN "-1"` and at `WARN "3"`. -/
theorem warn_record_sets_warn_time_witness :
    (cleanup_envelope_process cfg0 (cleanup_state_init "q") .WARN "-1").errs &&&
        CLEANUP_STAT_BAD ≠ 0 ∧
    (cleanup_envelope_process cfg0 (cleanup_state_init "q") .WARN "3").errs =
        (cleanup_state_init "q").errs :=
  ⟨(warn_record_sets_warn_time cfg0 (cleanup_state_init "q") "-1").2.1 (by decide),
   ((warn_record_sets_warn_time cfg0 (cleanup_state_init "q") "3").2.2 (by decide)).1⟩

/-! ### C3: FLGS records -/

/-- C3 counterexample: with payload `49` (one bit inside the extra-flags
mask `48`, one bit outside it) the processor only warns and leaves
`state.flags` unchanged — the in-mask bit 48 is *not* ORed in, contrary to
the claim. -/
theorem flgs_mixed_bits_cex :
    flags_outside_mask_extra (atol "49") = true ∧
    (atol "49").toNat &&& CLEANUP_FLAG_MASK_EXTRA = 48 ∧
    (cleanup_envelope_process cfg0 (cleanup_state_init "q") .FLGS "49").flags = 0 ∧
    (cleanup_envelope_process cfg0 (cleanup_state_init "q") .FLGS "49").warnings = 1 ∧
    (cleanup_envelope_process cfg0 (cleanup_state_init "q") .FLGS "49").errs = 0 := by
  decide

/-- C3 amended: a `FLGS` record never touches `errs`; if the parsed mask has
any bit outside the allowed extra-flags mask the processor warns and leaves
`state.flags` entirely unchanged, otherwise it ORs the whole mask into
`state.flags` without a warning. -/
theorem flgs_record_behavior (cfg : Config) (st : CleanupState) (buf : String) :
    (cleanup_envelope_process cfg st .FLGS buf).errs = st.errs ∧
    (cleanup_envelope_process cfg st .FLGS buf).sink = st.sink ∧
    (flags_outside_mask_extra (atol buf) = true →
      (cleanup_envelope_process cfg st .FLGS buf).flags = st.flags ∧
      (cleanup_envelope_process cfg st .FLGS buf).warnings = st.warnings + 1) ∧
    (flags_outside_mask_extra (atol buf) = false →
      (cleanup_envelope_process cfg st .FLGS buf).flags = st.flags ||| (atol buf).toNat ∧
      (cleanup_envelope_process cfg st .FLGS buf).warnings = st.warnings) := by
  simp only [cleanup_envelope_process]
  by_cases hout : flags_outside_mask_extra (atol buf) = true <;>
    simp [hout, msg_warn]

/-- Witness for C3's amended theorem at payloads `48` (inside the mask) and
`49` (one bit outside). -/
theorem flgs_record_behavior_witness :
    (cleanup_envelope_process cfg0 (cleanup_state_init "q") .FLGS "48").flags =
        (cleanup_state_init "q").flags ||| (atol "48").toNat ∧
    (cleanup_envelope_process cfg0 (cleanup_state_init "q") .FLGS "49").flags =
        (cleanup_state_init "q").flags :=
  ⟨((flgs_record_behavior cfg0 (cleanup_state_init "q") "48").2.2.2 (by decide)).1,
   ((flgs_record_behavior cfg0 (cleanup_state_init "q") "49").2.2.1 (by decide)).1⟩

/-! ### C7: TIME records -/

/-- C7 counterexample: a second `TIME` record overwrites `state.time` — the
code has no set-once guard — so "no later record changes state.time" fails
on the stream `TIME 1`, `TIME 2`. -/
theorem time_set_once_cex :
    (cleanup_run cfg0 (cleanup_state_init "q") [(.TIME, "1")]).time = 1 ∧
    (cleanup_run cfg0 (cleanup_state_init "q") [(.TIME, "1"), (.TIME, "2")]).time = 2 := by
  decide

/-- C7 amended: every `TIME` record (not only the first) sets `state.time`
to its parsed payload and is passed through to the sink; records of any
other type leave `state.time` unchanged. -/
theorem time_record_behavior (cfg : Config) (st : CleanupState) (buf : String)
    (t : RecType) (ht : t ≠ .TIME) :
    (cleanup_envelope_process cfg st .TIME buf).time = atol buf ∧
    (cleanup_envelope_process cfg st .TIME buf).sink = st.sink ++ [(.TIME, buf)] ∧
    (cleanup_envelope_process cfg st t buf).time = st.time := by
  refine ⟨?_, ?_, ?_⟩
  · simp [cleanup_envelope_process, rec_type_envelope_member, cleanup_out,
      orphan_check_time]
  · simp [cleanup_envelope_process, rec_type_envelope_member, cleanup_out,
      orphan_check_sink]
  · rcases hspl : split_nameval buf with _ | ⟨n, v⟩ <;>
      cases t <;>
        simp_all [cleanup_envelope_process, rec_type_envelope_member, cleanup_out,
          cleanup_addr_sender, cleanup_addr_recipient, msg_warn, orphan_check_time,
          apply_ite CleanupState.time]

/-- Witness for C7's amended theorem: `TIME "7"` writes time 7; a `FULL`
record leaves the time unchanged. -/
theorem time_record_behavior_witness :
    (cleanup_envelope_process cfg0 stA .TIME "7").time = atol "7" ∧
    (cleanup_envelope_process cfg0 stA .FULL "N N").time = stA.time :=
  ⟨(time_record_behavior cfg0 stA "7" .FULL (by decide)).1,
   (time_record_behavior cfg0 stA "7" .FULL (by decide)).2.2⟩

/-! ### C1: the MESG boundary -/

/-- C1: on the `MESG` boundary record: with sender or time unset, `errs & BAD`
is set and the handler and the sink are unchanged; otherwise `warn_time` is
synthesized from the configured `delay_warn_time` when unset, a `WARN` record
is emitted to the sink whenever `warn_time` ends up set, and the handler
transitions to the content processor (ENVELOPE to CONTENT). -/
theorem mesg_boundary_transition (cfg : Config) (st : CleanupState) (buf : String) :
    ((st.sender = none ∨ st.time = 0) →
      (cleanup_envelope_process cfg st .MESG buf).errs &&& CLEANUP_STAT_BAD ≠ 0 ∧
      (cleanup_envelope_process cfg st .MESG buf).action = st.action ∧
      (cleanup_envelope_process cfg st .MESG buf).sink = st.sink) ∧
    (st.sender ≠ none → st.time ≠ 0 →
      (cleanup_envelope_process cfg st .MESG buf).warn_time =
        (if st.warn_time = 0 ∧ cfg.var_delay_warn_time > 0
          then st.time + cfg.var_delay_warn_time else st.warn_time) ∧
      ((cleanup_envelope_process cfg st .MESG buf).warn_time ≠ 0 →
        (cleanup_envelope_process cfg st .MESG buf).sink = st.sink ++
          [(.WARN, toString (cleanup_envelope_process cfg st .MESG buf).warn_time)]) ∧
      ((cleanup_envelope_process cfg st .MESG buf).warn_time = 0 →
        (cleanup_envelope_process cfg st .MESG buf).sink = st.sink) ∧
      (cleanup_envelope_process cfg st .MESG buf).action = .message) := by
  constructor
  · intro h
    simp [cleanup_envelope_process, h, msg_warn, stat_bad_or]
  · intro hs ht
    have hcond : ¬ (st.sender = none ∨ st.time = 0) := by tauto
    by_cases h0 : st.warn_time = 0
    · by_cases hd : cfg.var_delay_warn_time > 0
      · by_cases hz : st.time + cfg.var_delay_warn_time = 0 <;>
          simp [cleanup_envelope_process, hcond, h0, hd, hz, cleanup_out]
      · simp [cleanup_envelope_process, hcond, h0, hd, cleanup_out]
    · simp [cleanup_envelope_process, hcond, h0, cleanup_out]

/-- Witness for C1: with sender and time set the boundary synthesizes the
warn time and installs the content handler; on an empty envelope it marks
the message bad. -/
theorem mesg_boundary_transition_witness :
    (cleanup_envelope_process cfg0 stA .MESG "").action = .message ∧
    (cleanup_envelope_process cfg0 stA .MESG "").warn_time =
      (if stA.warn_time = 0 ∧ cfg0.var_delay_warn_time > 0
        then stA.time + cfg0.var_delay_warn_time else stA.warn_time) ∧
    (cleanup_envelope_process cfg0 (cleanup_state_init "q") .MESG "").errs &&&
        CLEANUP_STAT_BAD ≠ 0 :=
  ⟨((mesg_boundary_transition cfg0 stA "").2 (by decide) (by decide)).2.2.2,
   ((mesg_boundary_transition cfg0 stA "").2 (by decide) (by decide)).1,
   ((mesg_boundary_transition cfg0 (cleanup_state_init "q") "").1 (Or.inl rfl)).1⟩

/-! ### C4: original-recipient binding -/

/-- C4 counterexample: after `ORCP "X"`, a `DONE` record drops the pending
label with *no* warning recorded, and a `RCPT` record that is rejected for
lack of a sender leaves the label pending and emits nothing — both contrary
to the claim that any non-RCPT successor warns and drops the label and that
a RCPT successor always consumes it. -/
theorem orcp_binding_cex :
    ((cleanup_run cfg0 (cleanup_state_init "q") [(.ORCP, "X"), (.DONE, "")]).warnings = 0 ∧
     (cleanup_run cfg0 (cleanup_state_init "q") [(.ORCP, "X"), (.DONE, "")]).orig_rcpt = none) ∧
    ((cleanup_run cfg0 (cleanup_state_init "q") [(.ORCP, "X"), (.RCPT, "b@y")]).orig_rcpt
        = some "X" ∧
     (cleanup_run cfg0 (cleanup_state_init "q") [(.ORCP, "X"), (.RCPT, "b@y")]).sink =
       (cleanup_state_init "q").sink) := by
  decide

/-- C4 amended: an `ORCP` record stores its payload as the pending label.
With a pending label `x`: an accepted `RCPT` (sender set) hands exactly `x`
to the recipient rewriter — the sink receives the `(ORCP x, RCPT buf)` pair —
and releases the label; a `RCPT` rejected for lack of a sender keeps the
label pending and emits nothing; `DONE` releases the label without a
warning; another envelope-segment record (here `TIME`) warns and releases
it; `MESG` and `FLGS` never reach the orphan cleanup and leave the label
pending. -/
theorem orcp_pending_behavior (cfg : Config) (st : CleanupState) (x buf : String)
    (hpend : st.orig_rcpt = some x) :
    ((cleanup_envelope_process cfg { st with orig_rcpt := none } .ORCP buf).orig_rcpt
        = some buf) ∧
    (st.sender ≠ none →
      (cleanup_envelope_process cfg st .RCPT buf).sink
          = st.sink ++ [(.ORCP, x), (.RCPT, buf)] ∧
      (cleanup_envelope_process cfg st .RCPT buf).orig_rcpt = none) ∧
    (st.sender = none →
      (cleanup_envelope_process cfg st .RCPT buf).orig_rcpt = some x ∧
      (cleanup_envelope_process cfg st .RCPT buf).sink = st.sink ∧
      (cleanup_envelope_process cfg st .RCPT buf).errs &&& CLEANUP_STAT_BAD ≠ 0) ∧
    ((cleanup_envelope_process cfg st .DONE buf).orig_rcpt = none ∧
     (cleanup_envelope_process cfg st .DONE buf).warnings = st.warnings) ∧
    ((cleanup_envelope_process cfg st .TIME buf).orig_rcpt = none ∧
     (cleanup_envelope_process cfg st .TIME buf).warnings = st.warnings + 1) ∧
    (cleanup_envelope_process cfg st .MESG buf).orig_rcpt = some x ∧
    (cleanup_envelope_process cfg st .FLGS buf).orig_rcpt = some x := by
  refine ⟨?_, ?_, ?_, ?_, ?_, ?_, ?_⟩
  · simp [cleanup_envelope_process, rec_type_envelope_member, cleanup_orphan_check]
  · intro hs
    simp [cleanup_envelope_process, rec_type_envelope_member, orphan_check_rcpt,
      hpend, hs, cleanup_addr_recipient]
  · intro hs
    simp [cleanup_envelope_process, rec_type_envelope_member, orphan_check_rcpt,
      hpend, hs, msg_warn, stat_bad_or]
  · simp [cleanup_envelope_process, rec_type_envelope_member, cleanup_orphan_check,
      hpend]
  · simp [cleanup_envelope_process, rec_type_envelope_member, cleanup_orphan_check,
      hpend, msg_warn, cleanup_out]
  · simp [cleanup_envelope_process, hpend, msg_warn, cleanup_out,
      apply_ite CleanupState.orig_rcpt]
  · simp [cleanup_envelope_process, hpend, msg_warn,
      apply_ite CleanupState.orig_rcpt]

/-- Witness for C4's amended theorem at a pending label `X`. -/
theorem orcp_pending_behavior_witness :
    (cleanup_envelope_process cfg0 stP .RCPT "b@y").sink
        = stP.sink ++ [(.ORCP, "X"), (.RCPT, "b@y")] ∧
    (cleanup_envelope_process cfg0 stP .TIME "2").warnings = stP.warnings + 1 ∧
    (cleanup_envelope_process cfg0 stP .DONE "").warnings = stP.warnings :=
  ⟨((orcp_pending_behavior cfg0 stP "X" "b@y" rfl).2.1 (by decide)).1,
   (orcp_pending_behavior cfg0 stP "X" "2" rfl).2.2.2.2.1.2,
   (orcp_pending_behavior cfg0 stP "X" "" rfl).2.2.2.1.2⟩

/-! ### C8: VERP records -/

/-- C8: a `VERP` record with unset or empty sender sets `errs & BAD` and
emits nothing; with a non-empty sender but illegal delimiters it sets
`errs & BAD` and emits nothing; only with a non-empty sender and verified
delimiters does the record pass through to the sink verbatim, leaving `errs`
unchanged. -/
theorem verp_record_behavior (cfg : Config) (st : CleanupState) (buf : String) :
    ((st.sender = none ∨ st.sender = some "") →
      (cleanup_envelope_process cfg st .VERP buf).errs &&& CLEANUP_STAT_BAD ≠ 0 ∧
      (cleanup_envelope_process cfg st .VERP buf).sink = st.sink) ∧
    (¬ (st.sender = none ∨ st.sender = some "") → verp_delims_verify buf = false →
      (cleanup_envelope_process cfg st .VERP buf).errs &&& CLEANUP_STAT_BAD ≠ 0 ∧
      (cleanup_envelope_process cfg st .VERP buf).sink = st.sink) ∧
    (¬ (st.sender = none ∨ st.sender = some "") → verp_delims_verify buf = true →
      (cleanup_envelope_process cfg st .VERP buf).sink = st.sink ++ [(.VERP, buf)] ∧
      (cleanup_envelope_process cfg st .VERP buf).errs = st.errs) := by
  have hsink := orphan_check_sink st RecType.VERP
  have herrs := orphan_check_errs st RecType.VERP
  have hsend := orphan_check_sender st RecType.VERP
  refine ⟨?_, ?_, ?_⟩
  · intro h
    simp [cleanup_envelope_process, rec_type_envelope_member, hsend, hsink, herrs,
      h, stat_bad_or]
  · intro h hv
    simp [cleanup_envelope_process, rec_type_envelope_member, hsend, hsink, herrs,
      h, hv, msg_warn, stat_bad_or]
  · intro h hv
    simp [cleanup_envelope_process, rec_type_envelope_member, hsend, hsink, herrs,
      h, hv, cleanup_out]

/-- Witness for C8: missing sender, bad delimiters (space), and the
accepting case. -/
theorem verp_record_behavior_witness :
    (cleanup_envelope_process cfg0 (cleanup_state_init "q") .VERP "+=").errs &&&
        CLEANUP_STAT_BAD ≠ 0 ∧
    (cleanup_envelope_process cfg0 stA .VERP "+ ").errs &&& CLEANUP_STAT_BAD ≠ 0 ∧
    (cleanup_envelope_process cfg0 stA .VERP "+=").sink = stA.sink ++ [(.VERP, "+=")] :=
  ⟨((verp_record_behavior cfg0 (cleanup_state_init "q") "+=").1 (Or.inl rfl)).1,
   ((verp_record_behavior cfg0 stA "+ ").2.1 (by decide) (by decide)).1,
   ((verp_record_behavior cfg0 stA "+=").2.2 (by decide) (by decide)).1⟩

/-! ### C10: malformed ATTR already forwarded -/

/-- C10: an `ATTR` record accepted under the count limit whose payload does
not split as `name=value` is forwarded to the sink *before* the
malformation is detected: `errs & BAD` is set, the attribute mapping is
unchanged, and the malformed record still appears in the sink output. -/
theorem attr_malformed_forwarded (cfg : Config) (st : CleanupState) (buf : String)
    (hlim : st.attr.length < cfg.var_qattr_count_limit)
    (hmal : split_nameval buf = none) :
    (cleanup_envelope_process cfg st .ATTR buf).sink = st.sink ++ [(.ATTR, buf)] ∧
    (cleanup_envelope_process cfg st .ATTR buf).errs &&& CLEANUP_STAT_BAD ≠ 0 ∧
    (cleanup_envelope_process cfg st .ATTR buf).attr = st.attr := by
  have hsink := orphan_check_sink st RecType.ATTR
  have herrs := orphan_check_errs st RecType.ATTR
  have hattr := orphan_check_attr st RecType.ATTR
  have hnot : ¬ cfg.var_qattr_count_limit ≤ st.attr.length := by omega
  simp [cleanup_envelope_process, rec_type_envelope_member, hnot, hmal, cleanup_out,
    msg_warn, hsink, herrs, hattr, stat_bad_or]

/-- Witness for C10 at the malformed payload `noequals`. -/
theorem attr_malformed_forwarded_witness :
    (cleanup_envelope_process cfg0 (cleanup_state_init "q") .ATTR "noequals").sink =
        (cleanup_state_init "q").sink ++ [(.ATTR, "noequals")] ∧
    (cleanup_envelope_process cfg0 (cleanup_state_init "q") .ATTR "noequals").errs &&&
        CLEANUP_STAT_BAD ≠ 0 ∧
    (cleanup_envelope_process cfg0 (cleanup_state_init "q") .ATTR "noequals").attr =
        (cleanup_state_init "q").attr :=
  attr_malformed_forwarded cfg0 (cleanup_state_init "q") "noequals" (by decide) (by decide)

/-! ### C9: TLS server-init receiver -/

/-- C9: the receiver returns success exactly when the scan function read the
schema's 19 fields; in both the success and the error case the bundle stored
through the output pointer is fully constructed — each of the 16 string
fields is an owned string — so the paired free routine releases every owned
field. -/
theorem tls_server_init_scan_contract (o : ScanOutcome) :
    ((tls_proxy_server_init_scan o).2 = 1 ↔
      o.fields_read = (TLS_SERVER_INIT_SCHEMA_SIZE : Int)) ∧
    ((tls_proxy_server_init_scan o).2 = 1 ∨ (tls_proxy_server_init_scan o).2 = -1) ∧
    (tls_proxy_server_init_free (tls_proxy_server_init_scan o).1).length = 16 ∧
    (∀ f ∈ tls_proxy_server_init_free (tls_proxy_server_init_scan o).1, f.isSome) := by
  unfold tls_proxy_server_init_scan tls_proxy_server_init_free TLS_SERVER_INIT_SCHEMA_SIZE
  by_cases h : o.fields_read = 19 <;> simp [h]

/-- Witness for C9 at a concrete 19-field scan outcome. -/
theorem tls_server_init_scan_contract_witness :
    (tls_proxy_server_init_scan scan0).2 = 1 ∧
    (tls_proxy_server_init_free (tls_proxy_server_init_scan scan0).1).length = 16 ∧
    ((tls_proxy_server_init_scan scan0).1.mdalg).isSome :=
  ⟨(tls_server_init_scan_contract scan0).1.mpr (by decide),
   (tls_server_init_scan_contract scan0).2.2.1,
   (tls_server_init_scan_contract scan0).2.2.2 _ (by simp [tls_proxy_server_init_free])⟩

/-! ### C5: attribute count limit -/

lemma nvtable_update_fresh (tbl : List (String × String)) (n v : String)
    (h : ∀ q ∈ tbl, q.1 ≠ n) :
    nvtable_update tbl n v = tbl ++ [(n, v)] := by
  have hany : tbl.any (fun q => q.1 = n) = false := by
    simp only [List.any_eq_false, decide_eq_false_iff_not, decide_eq_true_eq]
    intro q hq
    simpa using h q hq
  simp [nvtable_update, hany]

lemma attr_step_accept (cfg : Config) (st : CleanupState) (p n v : String)
    (hlen : st.attr.length < cfg.var_qattr_count_limit)
    (hsp : split_nameval p = some (n, v))
    (hfresh : ∀ q ∈ st.attr, q.1 ≠ n) :
    (cleanup_envelope_process cfg st .ATTR p).attr = st.attr ++ [(n, v)] ∧
    (cleanup_envelope_process cfg st .ATTR p).errs = st.errs ∧
    (cleanup_envelope_process cfg st .ATTR p).action = st.action := by
  have hattr := orphan_check_attr st RecType.ATTR
  have herrs := orphan_check_errs st RecType.ATTR
  have hact := orphan_check_action st RecType.ATTR
  have hnot : ¬ cfg.var_qattr_count_limit ≤ st.attr.length := by omega
  simp [cleanup_envelope_process, rec_type_envelope_member, hnot, hsp, cleanup_out,
    hattr, herrs, hact, nvtable_update_fresh st.attr n v hfresh]

lemma attr_step_reject (cfg : Config) (st : CleanupState) (p : String)
    (hlen : cfg.var_qattr_count_limit ≤ st.attr.length) :
    (cleanup_envelope_process cfg st .ATTR p).attr = st.attr ∧
    (cleanup_envelope_process cfg st .ATTR p).errs = st.errs ||| CLEANUP_STAT_BAD ∧
    (cleanup_envelope_process cfg st .ATTR p).action = st.action := by
  have hattr := orphan_check_attr st RecType.ATTR
  have herrs := orphan_check_errs st RecType.ATTR
  have hact := orphan_check_action st RecType.ATTR
  simp [cleanup_envelope_process, rec_type_envelope_member, hlen, msg_warn,
    hattr, herrs, hact]

lemma attr_run_general (cfg : Config) (ps : List String) : ∀ (st : CleanupState),
    st.action = .envelope →
    (∀ p ∈ ps, (split_nameval p).isSome) →
    (st.attr.map Prod.fst ++ ps.map (fun p => (attr_entry p).1)).Nodup →
    st.attr.length ≤ cfg.var_qattr_count_limit →
    (cleanup_run cfg st (attr_stream ps)).attr
        = st.attr ++ (ps.take (cfg.var_qattr_count_limit - st.attr.length)).map attr_entry ∧
    (cleanup_run cfg st (attr_stream ps)).errs
        = (if ps.length ≤ cfg.var_qattr_count_limit - st.attr.length then st.errs
           else st.errs ||| CLEANUP_STAT_BAD) := by
  induction ps with
  | nil =>
    intro st hact hwf hnd hlen
    simp [attr_stream, cleanup_run]
  | cons p tl ih =>
    intro st hact hwf hnd hlen
    obtain ⟨q, hsp⟩ := Option.isSome_iff_exists.mp (hwf p (by simp))
    obtain ⟨n, v⟩ := q
    have hentry : attr_entry p = (n, v) := by simp [attr_entry, hsp]
    have hrun : cleanup_run cfg st (attr_stream (p :: tl))
        = cleanup_run cfg (cleanup_envelope_process cfg st .ATTR p) (attr_stream tl) := by
      simp [attr_stream, cleanup_run, cleanup_step, hact]
    by_cases hcap : cfg.var_qattr_count_limit ≤ st.attr.length
    · obtain ⟨ha, he, hc⟩ := attr_step_reject cfg st p hcap
      have hlen0 : cfg.var_qattr_count_limit - st.attr.length = 0 := by omega
      have hnd' : ((cleanup_envelope_process cfg st .ATTR p).attr.map Prod.fst
          ++ tl.map (fun r => (attr_entry r).1)).Nodup := by
        rw [ha]
        refine hnd.sublist ?_
        simp only [List.map_cons]
        exact List.Sublist.append_left (List.sublist_cons_self _ _) _
      obtain ⟨iha, ihe⟩ := ih (cleanup_envelope_process cfg st .ATTR p)
        (by rw [hc, hact]) (fun r hr => hwf r (by simp [hr])) hnd' (by rw [ha]; omega)
      rw [ha] at iha ihe
      rw [he] at ihe
      rw [hlen0] at iha ihe
      constructor
      · rw [hrun, iha, hlen0]
        simp
      · rw [hrun, ihe, hlen0]
        have hfalse : ¬ (p :: tl).length ≤ 0 := by simp
        rw [if_neg hfalse]
        split <;> simp [stat_bad_or_idem]
    · have hlt : st.attr.length < cfg.var_qattr_count_limit := Nat.lt_of_not_le hcap
      have hnd2 := hnd
      rw [List.nodup_append] at hnd2
      obtain ⟨hnd_attr, hnd_ps, hdisj⟩ := hnd2
      have hfresh : ∀ q ∈ st.attr, q.1 ≠ n := by
        intro q hq hqn
        have h1 : n ∈ st.attr.map Prod.fst := by
          rw [← hqn]
          exact List.mem_map_of_mem Prod.fst hq
        have h2 : n ∈ (p :: tl).map (fun r => (attr_entry r).1) := by
          simp [hentry]
        exact hdisj h1 h2
      obtain ⟨ha, he, hc⟩ := attr_step_accept cfg st p n v hlt hsp hfresh
      have hnd' : ((cleanup_envelope_process cfg st .ATTR p).attr.map Prod.fst
          ++ tl.map (fun r => (attr_entry r).1)).Nodup := by
        rw [ha]
        have hre : (st.attr ++ [(n, v)]).map Prod.fst ++ tl.map (fun r => (attr_entry r).1)
            = st.attr.map Prod.fst ++ (p :: tl).map (fun r => (attr_entry r).1) := by
          simp [hentry, List.append_assoc]
        rw [hre]
        exact hnd
      obtain ⟨iha, ihe⟩ := ih (cleanup_envelope_process cfg st .ATTR p)
        (by rw [hc, hact]) (fun r hr => hwf r (by simp [hr])) hnd'
        (by rw [ha]; simp; omega)
      rw [ha] at iha ihe
      rw [he] at ihe
      have hlen1 : (st.attr ++ [(n, v)]).length = st.attr.length + 1 := by simp
      rw [hlen1] at iha ihe
      constructor
      · rw [hrun, iha]
        have hk : cfg.var_qattr_count_limit - st.attr.length
            = (cfg.var_qattr_count_limit - (st.attr.length + 1)) + 1 := by omega
        rw [hk, List.take_succ_cons, List.map_cons, hentry]
        simp [List.append_assoc]
      · rw [hrun, ihe]
        by_cases hcond : tl.length ≤ cfg.var_qattr_count_limit - (st.attr.length + 1)
        · rw [if_pos hcond, if_pos (by simp; omega)]
        · rw [if_neg hcond, if_neg (by simp; omega)]

/-- C5: over a stream of well-formed `ATTR` records with distinct names,
the mapping size never exceeds `qattr_count_limit`; a stream no longer than
the limit lands every attribute in the mapping (in order, `errs` untouched);
a longer stream stores exactly the first `limit` attributes, and every
record beyond the limit sets `errs & BAD` while the mapping size stays at
the limit. -/
theorem attr_count_limit_invariant (cfg : Config) (st : CleanupState) (ps : List String)
    (hact : st.action = .envelope) (hattr : st.attr = [])
    (hwf : ∀ p ∈ ps, (split_nameval p).isSome)
    (hnd : (ps.map (fun p => (attr_entry p).1)).Nodup) :
    (∀ k : Nat, (cleanup_run cfg st (attr_stream (ps.take k))).attr.length
        ≤ cfg.var_qattr_count_limit) ∧
    (ps.length ≤ cfg.var_qattr_count_limit →
      (cleanup_run cfg st (attr_stream ps)).attr = ps.map attr_entry ∧
      (cleanup_run cfg st (attr_stream ps)).errs = st.errs ∧
      ∀ p ∈ ps, attr_entry p ∈ (cleanup_run cfg st (attr_stream ps)).attr) ∧
    (cfg.var_qattr_count_limit < ps.length →
      (cleanup_run cfg st (attr_stream ps)).attr
          = (ps.take cfg.var_qattr_count_limit).map attr_entry ∧
      (cleanup_run cfg st (attr_stream ps)).attr.length = cfg.var_qattr_count_limit ∧
      (cleanup_run cfg st (attr_stream ps)).errs &&& CLEANUP_STAT_BAD ≠ 0) ∧
    (∀ k : Nat, cfg.var_qattr_count_limit ≤ k → k < ps.length →
      (cleanup_run cfg st (attr_stream (ps.take (k+1)))).errs &&& CLEANUP_STAT_BAD ≠ 0 ∧
      (cleanup_run cfg st (attr_stream (ps.take (k+1)))).attr.length
          = cfg.var_qattr_count_limit) := by
  have hwf' : ∀ (k : Nat), ∀ p ∈ ps.take k, (split_nameval p).isSome :=
    fun k p hp => hwf p (List.take_subset k ps hp)
  have hnd' : ∀ (k : Nat),
      (st.attr.map Prod.fst ++ (ps.take k).map (fun p => (attr_entry p).1)).Nodup := by
    intro k
    rw [hattr]
    simp only [List.map_nil, List.nil_append]
    rw [List.map_take]
    exact hnd.sublist (List.take_sublist _ _)
  have hlen0 : st.attr.length ≤ cfg.var_qattr_count_limit := by
    rw [hattr]; simp
  have gen := fun (k : Nat) =>
    attr_run_general cfg (ps.take k) st hact (hwf' k) (hnd' k) hlen0
  have genps := attr_run_general cfg ps st hact hwf
    (by rw [hattr]; simpa using hnd) hlen0
  refine ⟨?_, ?_, ?_, ?_⟩
  · intro k
    obtain ⟨g1, _⟩ := gen k
    rw [hattr] at g1
    simp only [List.nil_append, List.length_nil, Nat.sub_zero] at g1
    rw [g1]
    simp only [List.length_map, List.length_take]
    omega
  · intro hle
    obtain ⟨g1, g2⟩ := genps
    rw [hattr] at g1 g2
    simp only [List.nil_append, List.length_nil, Nat.sub_zero] at g1 g2
    rw [List.take_of_length_le hle] at g1
    refine ⟨g1, ?_, ?_⟩
    · rw [g2, if_pos hle]
    · intro p hp
      rw [g1]
      exact List.mem_map_of_mem attr_entry hp
  · intro hgt
    obtain ⟨g1, g2⟩ := genps
    rw [hattr] at g1 g2
    simp only [List.nil_append, List.length_nil, Nat.sub_zero] at g1 g2
    refine ⟨g1, ?_, ?_⟩
    · rw [g1]
      simp only [List.length_map, List.length_take]
      omega
    · rw [g2, if_neg (by omega)]
      exact stat_bad_or st.errs
  · intro k hk1 hk2
    obtain ⟨g1, g2⟩ := gen (k + 1)
    rw [hattr] at g1 g2
    simp only [List.nil_append, List.length_nil, Nat.sub_zero] at g1 g2
    have hlenk : (ps.take (k + 1)).length = k + 1 := by
      rw [List.length_take]
      omega
    rw [hlenk] at g2
    constructor
    · rw [g2, if_neg (by omega)]
      exact stat_bad_or st.errs
    · rw [g1]
      simp only [List.length_map, List.length_take]
      omega

/-- Witness for C5: limit 2 and the three-attribute stream of the spec's
scenario; the first two attributes are stored, the third sets `errs & BAD`. -/
theorem attr_count_limit_invariant_witness :
    (cleanup_run cfg0 (cleanup_state_init "q") (attr_stream ["a=1", "b=2", "c=3"])).attr
        = (["a=1", "b=2", "c=3"].take cfg0.var_qattr_count_limit).map attr_entry ∧
    (cleanup_run cfg0 (cleanup_state_init "q") (attr_stream ["a=1", "b=2", "c=3"])).errs &&&
        CLEANUP_STAT_BAD ≠ 0 ∧
    (cleanup_run cfg0 (cleanup_state_init "q")
        (attr_stream (["a=1", "b=2", "c=3"].take 2))).attr.length
      ≤ cfg0.var_qattr_count_limit :=
  ⟨((attr_count_limit_invariant cfg0 (cleanup_state_init "q") ["a=1", "b=2", "c=3"]
      rfl rfl (by decide) (by decide)).2.2.1 (by decide)).1,
   ((attr_count_limit_invariant cfg0 (cleanup_state_init "q") ["a=1", "b=2", "c=3"]
      rfl rfl (by decide) (by decide)).2.2.1 (by decide)).2.2,
   (attr_count_limit_invariant cfg0 (cleanup_state_init "q") ["a=1", "b=2", "c=3"]
      rfl rfl (by decide) (by decide)).1 2⟩
